import Mathlib

/-!
# DuckDuckGo chat gateway: session client, stream decoder and model table

A shallow embedding of `chat.go` (token handling, `SendMessage` with its
refresh-and-retry path, `ProcessStreamResponse`, `Clear`) and of the model
table and the session registry of `handlers.go` (`validateModel`, `GetModels`,
`generateSessionID`, `getOrCreateSession`).

Conventions of the embedding:

* The session is a value; every operation returns the updated session.
* The network is an oracle `Upstream`: it fixes the answer to the `n`-th call
  of `GetVQD` and to the `n`-th call of `Client.Do`. The `World` records how
  many token requests were made and which chat requests were sent.
* `time.Sleep` and `log.Printf` have no effect on the modelled state.
* `encoding/json` is not part of the repository; the decoder of one event is a
  parameter `unmarshal : String → Option String` (`none`: `json.Unmarshal`
  returned an error, `some m`: it succeeded and the `Message` field holds `m`).
* The goroutine of `ProcessStreamResponse` is run to completion; the values it
  sends on `stream` are collected in order.
-/

namespace DuckChat

/-! ## Go string functions used by the program -/

/-- Go `strings.HasPrefix`. -/
def HasPrefix (s pre : String) : Bool :=
  pre.toList.isPrefixOf s.toList

/-- Go `strings.TrimPrefix`. -/
def TrimPrefix (s pre : String) : String :=
  if HasPrefix s pre then String.mk (s.toList.drop pre.toList.length) else s

/-- Go `strings.Contains`. -/
def Contains (s sub : String) : Bool :=
  s.toList.tails.any (fun t => sub.toList.isPrefixOf t)

/-- Go `strings.ToLower` on ASCII text: the letters `A`..`Z` are folded, every
other character is kept. (Go also folds non-ASCII capitals; none occurs in the
model names.) -/
def ToLower (s : String) : String :=
  String.mk (s.toList.map Char.toLower)

/-! ## Data model (`chat.go`, lines 17-75) -/

/-- Go `type Model string`. -/
abbrev Model := String

def GPT4Mini : Model := "gpt-4o-mini"
def Claude3 : Model := "claude-3-haiku-20240307"
def Llama : Model := "meta-llama/Llama-3.3-70B-Instruct-Turbo"
def Mixtral : Model := "mistralai/Mistral-Small-24B-Instruct-2501"
def O4Mini : Model := "o4-mini"

structure Message where
  Content : String
  Role : String
deriving DecidableEq, Repr

structure ToolChoice where
  NewsSearch : Bool
  VideosSearch : Bool
  LocalSearch : Bool
  WeatherForecast : Bool
deriving DecidableEq, Repr

structure Metadata where
  ToolChoice : ToolChoice
deriving DecidableEq, Repr

structure ChatPayload where
  Model : Model
  Metadata : Metadata
  Messages : List Message
  CanUseTools : Bool
deriving DecidableEq, Repr

structure DynamicHeaders where
  FeSignals : String
  FeVersion : String
  VqdHash1 : String
deriving DecidableEq, Repr

/-- The session (`ChatSession`). `Client` and `CookieJar` are the transport;
their behaviour is the `Upstream` oracle. `RetryCount` is a Go `int`. -/
structure ChatSession where
  OldVqd : String
  NewVqd : String
  Model : Model
  Messages : List Message
  RetryCount : Int
  FeSignals : String
  FeVersion : String
  VqdHash1 : String
deriving DecidableEq, Repr

/-! ## The network -/

/-- The chat request built by `SendMessage` (lines 181-227): the JSON payload and
the headers that depend on the session. The other headers are constants.
`xVqdHash1` is `none` when the header is not set. -/
structure Request where
  payload : ChatPayload
  xFeSignals : String
  xFeVersion : String
  xVqd4 : String
  xVqdHash1 : Option String
deriving DecidableEq, Repr

/-- An HTTP response of the chat endpoint.
`xVqd4` is `resp.Header.Get("x-vqd-4")` (empty when the header is absent);
`body` is what `io.ReadAll(resp.Body)` returns on the non-OK path;
`lines` are the tokens that successive `scanner.Scan()` calls deliver on the OK
path, and `scanErr` tells whether `scanner.Err()` is non-nil when it is
consulted after the scanning loop. -/
structure Response where
  StatusCode : Int
  Status : String
  xVqd4 : String
  body : String
  lines : List String
  scanErr : Bool
deriving DecidableEq, Repr

/-- The remote service. `vqd n` is the value of the `x-vqd-4` header obtained by
the `n`-th call of `GetVQD` (empty: unreachable, timed out or header missing);
`chat n` is the outcome of the `n`-th `Client.Do`, `none` being a transport
error. -/
structure Upstream where
  vqd : Nat → String
  chat : Nat → Option Response

/-- What the session client has done to the network so far. -/
structure World where
  vqdCalls : Nat
  sent : List Request
deriving DecidableEq, Repr

/-- `GetVQD` (lines 78-119): one request to the status endpoint; the empty
string on failure. -/
def GetVQD (up : Upstream) (w : World) : String × World :=
  (up.vqd w.vqdCalls, { w with vqdCalls := w.vqdCalls + 1 })

/-- `c.Client.Do(req)` (line 229). -/
def Do (up : Upstream) (w : World) (req : Request) : Option Response × World :=
  (up.chat w.sent.length, { w with sent := w.sent ++ [req] })

/-- `GetDynamicHeaders` (lines 122-128). -/
def GetDynamicHeaders : DynamicHeaders :=
  { FeSignals := "eyJzdGFydCI6MTc0OTgyODU3NzE1NiwiZXZlbnRzIjpbeyJuYW1lIjoic3RhcnROZXdDaGF0IiwiZGVsdGEiOjYwfV0sImVuZCI6NTM4MX0="
    FeVersion := "serp_20250613_094749_ET-cafd73f97f51c983eb30"
    VqdHash1 := "eyJzZXJ2ZXJfaGFzaGVzIjpbIm5oWlUrcVZ3d3dzODFPVStDTm4vVkZJcS9DbXBSeGxYY2E5cHpGQ0JVZUk9IiwiajRNNmNBRzRheVFqQ21kWkN0a1IzOFY3eVRpd1gvZ2RmcDFueFhEdlV3cz0iXSwiY2xpZW50X2hhc2hlcyI6WyJpRTNqeXRnSm0xZGJaZlo1bW81M1NmaVAxdXUxeEdzY0F5RnB3V2NVOUtrPSIsInJaRGtaR2h4S0JEL1JuY00xVVNraHZNM3pLdEJzQmlzSlJTWFF4L2QzRFU9Il0sInNpZ25hbHMiOnt9LCJtZXRhIjp7InYiOiIzIiwiY2hhbGxlbmdlX2lkIjoiODU3NjA5YjlmMTg2NThlMWM0MzZhZWI2MGM0MDc1ZjdhYWNmYmI0OTlhY2Y4NTVmNDJkNWRjZmM5MTViNDhiOGg4amJ0IiwidGltZXN0YW1wIjoiMTc0OTgyODU3NjQ5NyIsIm9yaWdpbiI6Imh0dHBzOi8vZHVja2R1Y2tnby5jb20iLCJzdGFjayI6IkVycm9yXG5hdCBiYSAoaHR0cHM6Ly9kdWNrZHVja2dvLmNvbS9kaXN0L3dwbS5jaGF0LmNhZmQ3M2Y5N2Y1MWM5ODNlYjMwLmpzOjE6NzQ4MDMpXG5hdCBhc3luYyBkaXNwYXRjaFNlcnZpY2VJbml0aWFsVlFEIChodHRwczovL2R1Y2tkdWNrZ28uY29tL2Rpc3Qvd3BtLmNoYXQuY2FmZDczZjk3ZjUxYzk4M2ViMzAuanM6MTo5OTUyOSkifX0=" }

/-! ## The session client (`chat.go`, lines 130-263 and 319-325) -/

/-- `NewChatSession` (lines 131-164): `none` is the `nil` session returned when
the token cannot be obtained. -/
def NewChatSession (up : Upstream) (w : World) (model : Model) :
    Option ChatSession × World :=
  let (vqd, w1) := GetVQD up w
  if vqd = "" then (none, w1)
  else
    let headers := GetDynamicHeaders
    (some { OldVqd := vqd
            NewVqd := vqd
            Model := model
            Messages := []
            RetryCount := 0
            FeSignals := headers.FeSignals
            FeVersion := headers.FeVersion
            VqdHash1 := headers.VqdHash1 }, w1)

/-- The errors `SendMessage` returns: the token could not be obtained (line
171), `Client.Do` failed (line 231), or the upstream status was not OK (line
252, with status code, status text and body). `json.Marshal` of a payload made
of strings and booleans and `http.NewRequest` with the fixed method and URL
cannot fail, so lines 196-198 and 201-203 have no counterpart. -/
inductive SendError where
  | vqd
  | send
  | status (code : Int) (status : String) (body : String)
deriving DecidableEq, Repr

/-- The token check at the head of `SendMessage` (lines 168-173): an empty
`NewVqd` is replaced by a freshly acquired token. -/
def tokenCheck (up : Upstream) (c : ChatSession) (w : World) : ChatSession × World :=
  if c.NewVqd = "" then
    let (v, w1) := GetVQD up w
    ({ c with NewVqd := v }, w1)
  else (c, w)

/-- The user message appended at lines 176-179. -/
def userMessage (content : String) : Message :=
  { Role := "user", Content := content }

/-- The request of lines 181-227 for the session as it stands after the
append. -/
def buildRequest (c : ChatSession) : Request :=
  { payload :=
      { Model := c.Model
        Metadata :=
          { ToolChoice :=
              { NewsSearch := false
                VideosSearch := false
                LocalSearch := false
                WeatherForecast := false } }
        Messages := c.Messages
        CanUseTools := true }
    xFeSignals := c.FeSignals
    xFeVersion := c.FeVersion
    xVqd4 := c.NewVqd
    xVqdHash1 := if c.VqdHash1 ≠ "" then some c.VqdHash1 else none }

/-- The rejection test of line 239. -/
def isRejection (resp : Response) : Bool :=
  resp.StatusCode = 418 || resp.StatusCode = 429 || Contains resp.body "ERR_INVALID_VQD"

/-- `SendMessage` (lines 167-263) with an explicit bound on the depth of the
recursive call of line 249; `none` means the bound was too small. -/
def SendMessageFuel (up : Upstream) :
    Nat → ChatSession → World → String →
      Option (Except SendError Response × ChatSession × World)
  | 0, _, _, _ => none
  | fuel + 1, c, w, content =>
    let (c1, w1) := tokenCheck up c w
    if c1.NewVqd = "" then some (.error .vqd, c1, w1)
    else
      let c2 := { c1 with Messages := c1.Messages ++ [userMessage content] }
      match Do up w1 (buildRequest c2) with
      | (none, w2) => some (.error .send, c2, w2)
      | (some resp, w2) =>
        if resp.StatusCode ≠ 200 then
          if isRejection resp then
            let (v, w3) := GetVQD up w2
            let c3 := { c2 with NewVqd := v }
            if c3.NewVqd ≠ "" ∧ c3.RetryCount < 3 then
              SendMessageFuel up fuel { c3 with RetryCount := c3.RetryCount + 1 } w3 content
            else
              some (.error (.status resp.StatusCode resp.Status resp.body), c3, w3)
          else
            some (.error (.status resp.StatusCode resp.Status resp.body), c2, w2)
        else
          let c3 :=
            if resp.xVqd4 ≠ "" then { c2 with OldVqd := c2.NewVqd, NewVqd := resp.xVqd4 }
            else c2
          some (.ok resp, { c3 with RetryCount := 0 }, w2)

/-- `SendMessage`: the recursion of line 249 needs `RetryCount < 3` and
increments `RetryCount`, so `3 - RetryCount` nested calls are the most that can
happen. -/
def SendMessage (up : Upstream) (c : ChatSession) (w : World) (content : String) :
    Option (Except SendError Response × ChatSession × World) :=
  SendMessageFuel up ((3 - c.RetryCount).toNat + 1) c w content

/-- `Clear` (lines 320-325). -/
def Clear (up : Upstream) (c : ChatSession) (w : World) : ChatSession × World :=
  let (v, w1) := GetVQD up w
  ({ c with Messages := [], NewVqd := v, OldVqd := v, RetryCount := 0 }, w1)

/-! ## The stream decoder (`chat.go`, lines 266-317) -/

/-- The two accumulators of the scanning loop: the values sent on `stream`, in
order, and the content of `responseBuffer`. -/
structure DecodeState where
  stream : List String
  responseBuffer : String
deriving DecidableEq, Repr

/-- The loop of lines 278-300 over the tokens the scanner delivers. -/
def scanLoop (unmarshal : String → Option String) : List String → DecodeState → DecodeState
  | [], st => st
  | line :: rest, st =>
    if line = "data: [DONE]" then st
    else if HasPrefix line "data: " then
      match unmarshal (TrimPrefix line "data: ") with
      | none => scanLoop unmarshal rest st
      | some message =>
        if message ≠ "" then
          scanLoop unmarshal rest
            { stream := st.stream ++ [message]
              responseBuffer := st.responseBuffer ++ message }
        else scanLoop unmarshal rest st
    else scanLoop unmarshal rest st

/-- What a consumer that drains both channels of `ProcessStreamResponse` has
seen when they are closed: the fragments in order and whether an error was sent
on `errChan` (line 303). -/
structure StreamResult where
  fragments : List String
  failed : Bool
deriving DecidableEq, Repr

/-- `ProcessStreamResponse` (lines 266-317), goroutine run to completion. -/
def ProcessStreamResponse (unmarshal : String → Option String) (c : ChatSession)
    (resp : Response) : StreamResult × ChatSession :=
  let st := scanLoop unmarshal resp.lines { stream := [], responseBuffer := "" }
  if resp.scanErr then ({ fragments := st.stream, failed := true }, c)
  else if st.responseBuffer ≠ "" then
    ({ fragments := st.stream, failed := false },
      { c with Messages := c.Messages ++ [{ Role := "assistant", Content := st.responseBuffer }] })
  else ({ fragments := st.stream, failed := false }, c)

/-- The sentinel line of line 281. -/
def doneLine : String := "data: [DONE]"

/-- The fragment one line contributes when the loop reaches it: the `message`
value of a line that has the prefix, parses, and carries a non-empty value. -/
def lineFragment (unmarshal : String → Option String) (line : String) : Option String :=
  if HasPrefix line "data: " then
    match unmarshal (TrimPrefix line "data: ") with
    | some message => if message ≠ "" then some message else none
    | none => none
  else none

/-- The fragments in the words of the specification: of the lines that precede
the first sentinel line, those that start with the prefix and parse, and of
these the non-empty `message` values, in order. -/
def specFragments (unmarshal : String → Option String) (lines : List String) : List String :=
  (lines.takeWhile (fun line => decide (line ≠ doneLine))).filterMap (lineFragment unmarshal)

/-- A line on which parsing fails: it reaches `json.Unmarshal` (it is not the
sentinel and has the prefix) and `json.Unmarshal` returns an error, so that
lines 291-292 run. -/
def failsToParse (unmarshal : String → Option String) (line : String) : Bool :=
  decide (line ≠ doneLine) && HasPrefix line "data: " &&
    (unmarshal (TrimPrefix line "data: ")).isNone

/-- The line sequence with every line that fails to parse removed. -/
def dropMalformed (unmarshal : String → Option String) (lines : List String) : List String :=
  lines.filter (fun line => !failsToParse unmarshal line)

/-- A decoder for concrete streams, standing for `json.Unmarshal` into the
struct with the single field `Message`: on an object text with the one member
`message` whose value is a string literal without escapes it returns that
value, and it reports an error on every other text. -/
def unmarshalMessage (data : String) : Option String :=
  let opening := "\x7b\"message\":\""
  if HasPrefix data opening then
    let tail := data.toList.drop opening.toList.length
    let value := tail.takeWhile (fun ch => ch.toNat ≠ 34)
    if value.all (fun ch => decide (ch.toNat ≠ 92) && decide (32 ≤ ch.toNat)) &&
        decide (tail.drop value.length = "\"\x7d".toList) then
      some (String.mk value)
    else none
  else none

/-! ## One turn as the handlers run it (`handlers.go`, lines 195-227 and 294-359) -/

/-- How a turn ended. -/
inductive TurnOutcome where
  | sendFailed (e : SendError)
  | streamFailed (fragments : List String)
  | completed (fragments : List String)
deriving DecidableEq, Repr

/-- What is recorded of one turn: how it ended and how many chat requests were
dispatched during it. -/
structure TurnRecord where
  outcome : TurnOutcome
  dispatched : Nat
deriving DecidableEq, Repr

/-- One turn: `session.SendMessage(req.Message)`, and when it returns a
response, `session.ProcessStreamResponse(resp)` drained to the end. -/
def Turn (up : Upstream) (unmarshal : String → Option String) (c : ChatSession) (w : World)
    (content : String) : Option (TurnRecord × ChatSession × World) :=
  match SendMessage up c w content with
  | none => none
  | some (.error e, c1, w1) =>
    some ({ outcome := .sendFailed e, dispatched := w1.sent.length - w.sent.length }, c1, w1)
  | some (.ok resp, c1, w1) =>
    let (r, c2) := ProcessStreamResponse unmarshal c1 resp
    some ({ outcome := if r.failed then .streamFailed r.fragments else .completed r.fragments
            dispatched := w1.sent.length - w.sent.length }, c2, w1)

/-- A sequence of turns on one session, one per user text. -/
def runTurns (up : Upstream) (unmarshal : String → Option String) :
    ChatSession → World → List String → Option (List TurnRecord × ChatSession × World)
  | c, w, [] => some ([], c, w)
  | c, w, content :: rest =>
    match Turn up unmarshal c w content with
    | none => none
    | some (rec, c1, w1) =>
      match runTurns up unmarshal c1 w1 rest with
      | none => none
      | some (recs, c2, w2) => some (rec :: recs, c2, w2)

/-- A call on a session: the three operations that change it. -/
inductive Call where
  | send (content : String)
  | process (resp : Response)
  | clear
deriving DecidableEq, Repr

/-- The session and the world after one call. -/
def stepCall (up : Upstream) (unmarshal : String → Option String) (c : ChatSession) (w : World) :
    Call → Option (ChatSession × World)
  | .send content => (SendMessage up c w content).map (fun r => (r.2.1, r.2.2))
  | .process resp => some ((ProcessStreamResponse unmarshal c resp).2, w)
  | .clear => some (Clear up c w)

/-- The session and the world after a sequence of calls. -/
def runCalls (up : Upstream) (unmarshal : String → Option String) :
    ChatSession → World → List Call → Option (ChatSession × World)
  | c, w, [] => some (c, w)
  | c, w, call :: rest =>
    match stepCall up unmarshal c w call with
    | none => none
    | some (c1, w1) => runCalls up unmarshal c1 w1 rest

/-- The roles of a history of `n` complete turns: user, assistant, repeated. -/
def alternatingRoles : Nat → List String
  | 0 => []
  | n + 1 => "user" :: "assistant" :: alternatingRoles n

/-! ## The model table (`handlers.go`, lines 40-45, 86-101 and 118-157) -/

structure ModelInfo where
  ID : String
  Name : String
  Description : String
  Alias : String
deriving DecidableEq, Repr

/-- `validateModel` (lines 86-101). -/
def validateModel (modelStr : String) : Except String Model :=
  let s := ToLower modelStr
  if s = "gpt-4o-mini" ∨ s = "gpt4mini" ∨ s = "" then .ok GPT4Mini
  else if s = "claude-3-haiku-20240307" ∨ s = "claude" ∨ s = "claude3" then .ok Claude3
  else if s = "meta-llama/llama-3.3-70b-instruct-turbo" ∨ s = "llama" ∨ s = "llama3" then
    .ok Llama
  else if s = "mistralai/mistral-small-24b-instruct-2501" ∨ s = "mixtral" ∨ s = "mistral" then
    .ok Mixtral
  else if s = "o4-mini" ∨ s = "o4mini" then .ok O4Mini
  else .error ("modèle non supporté: " ++ modelStr)

/-- The `models` slice that `GetModels` returns (lines 119-150). -/
def GetModels : List ModelInfo :=
  [ { ID := GPT4Mini
      Name := "GPT-4o Mini"
      Description := "Modèle général rapide et équilibré"
      Alias := "gpt-4o-mini" },
    { ID := Claude3
      Name := "Claude 3 Haiku"
      Description := "Excellente pour l\x27écriture créative et les explications"
      Alias := "claude-3-haiku" },
    { ID := Llama
      Name := "Llama 3.3 70B"
      Description := "Spécialisé en programmation et tâches techniques"
      Alias := "llama" },
    { ID := Mixtral
      Name := "Mistral Small"
      Description := "Excellent pour l\x27analyse et le raisonnement"
      Alias := "mixtral" },
    { ID := O4Mini
      Name := "o4-mini"
      Description := "Très rapide pour les réponses courtes"
      Alias := "o4mini" } ]

/-! ## One attempt of `SendMessage` -/

/-- The result of one pass through the body of `SendMessage`: it returns, or it
reaches the recursive call of line 249 with the given session and world. -/
inductive Attempt where
  | returns (r : Except SendError Response) (c : ChatSession) (w : World)
  | retries (c : ChatSession) (w : World)

/-- One pass through lines 175-263 of `SendMessage`, entered with the session
and the world as the token check left them, up to the recursive call. -/
def dispatch (up : Upstream) (c1 : ChatSession) (w1 : World) (content : String) : Attempt :=
  let c2 := { c1 with Messages := c1.Messages ++ [userMessage content] }
  match Do up w1 (buildRequest c2) with
  | (none, w2) => .returns (.error .send) c2 w2
  | (some resp, w2) =>
    if resp.StatusCode ≠ 200 then
      if isRejection resp then
        let (v, w3) := GetVQD up w2
        let c3 := { c2 with NewVqd := v }
        if c3.NewVqd ≠ "" ∧ c3.RetryCount < 3 then
          .retries { c3 with RetryCount := c3.RetryCount + 1 } w3
        else
          .returns (.error (.status resp.StatusCode resp.Status resp.body)) c3 w3
      else
        .returns (.error (.status resp.StatusCode resp.Status resp.body)) c2 w2
    else
      let c3 :=
        if resp.xVqd4 ≠ "" then { c2 with OldVqd := c2.NewVqd, NewVqd := resp.xVqd4 }
        else c2
      .returns (.ok resp) { c3 with RetryCount := 0 } w2

/-- One pass through the body of `SendMessage`, up to the recursive call. -/
def attempt (up : Upstream) (c : ChatSession) (w : World) (content : String) : Attempt :=
  let (c1, w1) := tokenCheck up c w
  if c1.NewVqd = "" then .returns (.error .vqd) c1 w1
  else dispatch up c1 w1 content

/-- The session as `SendMessage` has it when the request is dispatched: the user
message appended. -/
def withUserMessage (c : ChatSession) (content : String) : ChatSession :=
  { c with Messages := c.Messages ++ [userMessage content] }

/-- The world once the request of a session with a token has been dispatched. -/
def afterRequest (c : ChatSession) (w : World) (content : String) : World :=
  { w with sent := w.sent ++ [buildRequest (withUserMessage c content)] }

/-- The session with which line 249 re-enters `SendMessage`: the user message
appended, the token replaced by the re-acquired one, `RetryCount` raised. -/
def retrySession (up : Upstream) (c : ChatSession) (w : World) (content : String) :
    ChatSession :=
  { withUserMessage c content with
    NewVqd := up.vqd w.vqdCalls
    RetryCount := c.RetryCount + 1 }

/-- The world in which line 249 re-enters `SendMessage`: one more request
dispatched, one more token request made. -/
def retryWorld (c : ChatSession) (w : World) (content : String) : World :=
  { vqdCalls := w.vqdCalls + 1
    sent := w.sent ++ [buildRequest (withUserMessage c content)] }

/-- The session a successful `SendMessage` leaves when its request was answered
by `resp` (lines 255-261). -/
def acceptedSession (c : ChatSession) (content : String) (resp : Response) : ChatSession :=
  if resp.xVqd4 ≠ "" then
    { withUserMessage c content with
      OldVqd := c.NewVqd
      NewVqd := resp.xVqd4
      RetryCount := 0 }
  else { withUserMessage c content with RetryCount := 0 }

/-! ## Concrete sessions, responses and upstreams -/

/-- An anti-bot rejection. -/
def teapot : Response :=
  { StatusCode := 418, Status := "418 I\x27m a teapot", xVqd4 := "", body := ""
    lines := [], scanErr := false }

/-- A 200 response whose stream holds the sentinel only. -/
def okDoneOnly : Response :=
  { StatusCode := 200, Status := "200 OK", xVqd4 := "vqd-next", body := ""
    lines := ["data: [DONE]"], scanErr := false }

/-- A 200 response that streams the answer "Hello" in two events. -/
def okHello : Response :=
  { StatusCode := 200, Status := "200 OK", xVqd4 := "vqd-next", body := ""
    lines := ["data: \x7b\"message\":\"Hel\"\x7d", "data: \x7b\"message\":\"lo\"\x7d",
      "data: [DONE]"]
    scanErr := false }

/-- A session with a token, an empty history and `RetryCount` 0. -/
def sessionA : ChatSession :=
  { OldVqd := "vqd-0", NewVqd := "vqd-0", Model := GPT4Mini, Messages := [], RetryCount := 0
    FeSignals := "signals", FeVersion := "version", VqdHash1 := "hash" }

/-- The world before any network call. -/
def worldA : World := { vqdCalls := 0, sent := [] }

/-- Every token request succeeds; the first `k` chat requests are rejected with
418 and the following ones are answered by `okDoneOnly`. -/
def upRejecting (k : Nat) : Upstream :=
  { vqd := fun _ => "vqd-new"
    chat := fun n => if n < k then some teapot else some okDoneOnly }

/-- The first token request succeeds and all later ones fail; chat requests are
answered by `okHello`. -/
def upTokenLost : Upstream :=
  { vqd := fun n => if n = 0 then "vqd-0" else ""
    chat := fun _ => some okHello }

/-- Every token request succeeds and every chat request is answered by
`okHello`. -/
def upHello : Upstream :=
  { vqd := fun _ => "vqd-0"
    chat := fun _ => some okHello }

/-- Every token request succeeds and every chat request is answered by
`okDoneOnly`. -/
def upDoneOnly : Upstream :=
  { vqd := fun _ => "vqd-0"
    chat := fun _ => some okDoneOnly }

/-- Every token request succeeds and every chat request is answered with
status 500. -/
def upServerError : Upstream :=
  { vqd := fun _ => "vqd-0"
    chat := fun _ =>
      some { StatusCode := 500, Status := "500 Internal Server Error", xVqd4 := "", body := "oops"
             lines := [], scanErr := false } }

/-! ## The session registry (`handlers.go`, lines 13-17 and 53-83) -/

/-- The global map `chatSessions`, from session id to session: a list of
entries with pairwise distinct ids. `sessionMutex` serialises the calls, which
are modelled one after the other. -/
abbrev Registry := List (String × ChatSession)

/-- The map read `chatSessions[sessionID]`. -/
def Registry.get (chatSessions : Registry) (sessionID : String) : Option ChatSession :=
  chatSessions.lookup sessionID

/-- The map write `chatSessions[sessionID] = session`: the entry of an id that
is present is replaced, a new id gets a new entry. -/
def Registry.set : Registry → String → ChatSession → Registry
  | [], sessionID, session => [(sessionID, session)]
  | (k, v) :: rest, sessionID, session =>
    if k = sessionID then (k, session) :: rest
    else (k, v) :: Registry.set rest sessionID session

/-- `generateSessionID` (lines 81-83): `fmt.Sprintf("session_%d", len(chatSessions)+1)`. -/
def generateSessionID (chatSessions : Registry) : String :=
  "session_" ++ toString (chatSessions.length + 1)

/-- `getOrCreateSession` (lines 54-78). The result is the returned session
(`none` for `nil`), the registry and the world after the call. A session found
in the registry is returned as it is stored there; the assignment
`session.Model = model` goes through the pointer and so changes the stored
session. -/
def getOrCreateSession (up : Upstream) (chatSessions : Registry) (w : World)
    (sessionID : String) (model : Model) : Option ChatSession × Registry × World :=
  let sessionID := if sessionID = "" then generateSessionID chatSessions else sessionID
  match chatSessions.get sessionID with
  | some session =>
    if model ≠ "" ∧ session.Model ≠ model then
      let session1 := { session with Model := model }
      (some session1, chatSessions.set sessionID session1, w)
    else (some session, chatSessions, w)
  | none =>
    let model := if model = "" then GPT4Mini else model
    match NewChatSession up w model with
    | (some session, w1) => (some session, chatSessions.set sessionID session, w1)
    | (none, w1) => (none, chatSessions, w1)

/-! # General lemmas -/

/-! ## General facts about `SendMessage` -/

theorem SendMessageFuel_succ (up : Upstream) (fuel : Nat) (c : ChatSession) (w : World)
    (content : String) :
    SendMessageFuel up (fuel + 1) c w content =
      match attempt up c w content with
      | .returns r c1 w1 => some (r, c1, w1)
      | .retries c1 w1 => SendMessageFuel up fuel c1 w1 content := by
  simp only [SendMessageFuel, attempt, dispatch]
  split_ifs with h1
  · rfl
  · cases hd : Do up (tokenCheck up c w).2 (buildRequest
          { (tokenCheck up c w).1 with Messages := (tokenCheck up c w).1.Messages ++ [userMessage content] }) with
    | mk o w2 =>
      cases o with
      | none => rfl
      | some resp =>
        dsimp only
        split_ifs <;> rfl

theorem dispatch_retries {up : Upstream} {c c1 : ChatSession} {w w1 : World} {content : String}
    (hv : c.NewVqd ≠ "") (h : dispatch up c w content = .retries c1 w1) :
    (∃ req, w1.sent = w.sent ++ [req] ∧ req.xVqd4 ≠ "") ∧
      c1.Messages = c.Messages ++ [userMessage content] ∧
      c.RetryCount < 3 ∧ c1.RetryCount = c.RetryCount + 1 ∧ c1.NewVqd ≠ "" := by
  unfold dispatch at h
  simp only [Do, GetVQD] at h
  cases hc : up.chat w.sent.length with
  | none => simp [hc] at h
  | some resp =>
    simp only [hc] at h
    split_ifs at h with h1 h2 h3
    · cases h
      exact ⟨⟨_, rfl, hv⟩, rfl, h3.2, rfl, h3.1⟩

theorem dispatch_returns {up : Upstream} {c c1 : ChatSession} {w w1 : World} {content : String}
    {r : Except SendError Response} (hv : c.NewVqd ≠ "")
    (h : dispatch up c w content = .returns r c1 w1) :
    (∃ req, w1.sent = w.sent ++ [req] ∧ req.xVqd4 ≠ "") ∧
      c1.Messages = c.Messages ++ [userMessage content] ∧
      (c1.RetryCount = c.RetryCount ∨ c1.RetryCount = 0) ∧
      (∀ resp, r = .ok resp → c1.RetryCount = 0) ∧ r ≠ .error .vqd := by
  unfold dispatch at h
  simp only [Do, GetVQD] at h
  cases hc : up.chat w.sent.length with
  | none =>
    simp only [hc] at h
    cases h
    exact ⟨⟨_, rfl, hv⟩, rfl, Or.inl rfl, (fun _ hr => by cases hr), (fun hr => by cases hr)⟩
  | some resp =>
    simp only [hc] at h
    split_ifs at h with h1 h2 h3 h4 <;> cases h
    · exact ⟨⟨_, rfl, hv⟩, rfl, Or.inl rfl, (fun _ hr => by cases hr), (fun hr => by cases hr)⟩
    · exact ⟨⟨_, rfl, hv⟩, rfl, Or.inl rfl, (fun _ hr => by cases hr), (fun hr => by cases hr)⟩
    · exact ⟨⟨_, rfl, hv⟩, rfl, Or.inr rfl, (fun _ _ => rfl), (fun hr => by cases hr)⟩
    · exact ⟨⟨_, rfl, hv⟩, rfl, Or.inr rfl, (fun _ _ => rfl), (fun hr => by cases hr)⟩

theorem tokenCheck_messages (up : Upstream) (c : ChatSession) (w : World) :
    (tokenCheck up c w).1.Messages = c.Messages := by
  unfold tokenCheck; split_ifs <;> rfl

theorem tokenCheck_retryCount (up : Upstream) (c : ChatSession) (w : World) :
    (tokenCheck up c w).1.RetryCount = c.RetryCount := by
  unfold tokenCheck; split_ifs <;> rfl

theorem tokenCheck_sent (up : Upstream) (c : ChatSession) (w : World) :
    (tokenCheck up c w).2.sent = w.sent := by
  unfold tokenCheck; split_ifs <;> rfl

theorem attempt_retries {up : Upstream} {c c1 : ChatSession} {w w1 : World} {content : String}
    (h : attempt up c w content = .retries c1 w1) :
    (∃ req, w1.sent = w.sent ++ [req] ∧ req.xVqd4 ≠ "") ∧
      c1.Messages = c.Messages ++ [userMessage content] ∧
      c.RetryCount < 3 ∧ c1.RetryCount = c.RetryCount + 1 ∧ c1.NewVqd ≠ "" := by
  unfold attempt at h
  dsimp only at h
  split_ifs at h with h0
  have := dispatch_retries h0 h
  rwa [tokenCheck_messages, tokenCheck_retryCount, tokenCheck_sent] at this

theorem attempt_returns {up : Upstream} {c c1 : ChatSession} {w w1 : World} {content : String}
    {r : Except SendError Response} (h : attempt up c w content = .returns r c1 w1) :
    (r = .error .vqd ∧ w1.sent = w.sent ∧ c1.Messages = c.Messages ∧
        c1.RetryCount = c.RetryCount ∧ c.NewVqd = "") ∨
      ((∃ req, w1.sent = w.sent ++ [req] ∧ req.xVqd4 ≠ "") ∧
        c1.Messages = c.Messages ++ [userMessage content] ∧
        (c1.RetryCount = c.RetryCount ∨ c1.RetryCount = 0) ∧
        (∀ resp, r = .ok resp → c1.RetryCount = 0) ∧ r ≠ .error .vqd) := by
  unfold attempt at h
  dsimp only at h
  split_ifs at h with h0
  · cases h
    refine Or.inl ⟨rfl, tokenCheck_sent up c w, tokenCheck_messages up c w,
      tokenCheck_retryCount up c w, ?_⟩
    by_contra hne
    simp [tokenCheck, hne] at h0
  · have := dispatch_returns h0 h
    rw [tokenCheck_messages, tokenCheck_retryCount, tokenCheck_sent] at this
    exact Or.inr this

/-- What a returning `SendMessage` has done: the requests it dispatched all
carry a non-empty token, the history grew by one user message per request, and
`RetryCount` stays within 0..3 when it started there; a returned response
comes with at least one request and `RetryCount` 0. -/
theorem SendMessageFuel_trace (up : Upstream) (content : String) :
    ∀ (fuel : Nat) (c : ChatSession) (w : World) (r : Except SendError Response)
      (c1 : ChatSession) (w1 : World),
      SendMessageFuel up fuel c w content = some (r, c1, w1) →
      ∃ new, w1.sent = w.sent ++ new ∧ (∀ req ∈ new, req.xVqd4 ≠ "") ∧
        c1.Messages = c.Messages ++ List.replicate new.length (userMessage content) ∧
        (0 ≤ c.RetryCount → c.RetryCount ≤ 3 → 0 ≤ c1.RetryCount ∧ c1.RetryCount ≤ 3) ∧
        (∀ resp, r = .ok resp → c1.RetryCount = 0) ∧
        (r = .error .vqd → c.NewVqd = "") ∧ (r = .error .vqd ↔ new = []) := by
  intro fuel
  induction fuel with
  | zero => intro c w r c1 w1 h; simp [SendMessageFuel] at h
  | succ n ih =>
    intro c w r c1 w1 h
    rw [SendMessageFuel_succ] at h
    cases ha : attempt up c w content with
    | returns r2 c2 w2 =>
      rw [ha] at h
      simp only [Option.some.injEq, Prod.mk.injEq] at h
      obtain ⟨rfl, rfl, rfl⟩ := h
      rcases attempt_returns ha with ⟨hr, hs, hm, hc, hv⟩ | ⟨⟨req, hs, hq⟩, hm, hc, hok, hne⟩
      · refine ⟨[], by simpa using hs, by simp, by simpa using hm, ?_, ?_, fun _ => hv, ?_⟩
        · intro h0 h3; rw [hc]; exact ⟨h0, h3⟩
        · intro resp hresp; rw [hr] at hresp; cases hresp
        · simp [hr]
      · refine ⟨[req], hs, by simpa using hq, by simpa using hm, ?_, hok,
          fun h => absurd h hne, ?_⟩
        · intro h0 h3
          rcases hc with hc | hc <;> rw [hc]
          · exact ⟨h0, h3⟩
          · exact ⟨le_refl _, by norm_num⟩
        · simp [hne]
    | retries c2 w2 =>
      rw [ha] at h
      obtain ⟨⟨req, hs, hq⟩, hm, hlt, hc, hv2⟩ := attempt_retries ha
      obtain ⟨new, hs2, hq2, hm2, hb2, hok2, hvqd2, _⟩ := ih c2 w2 r c1 w1 h
      have hne : r ≠ .error .vqd := fun h => hv2 (hvqd2 h)
      refine ⟨req :: new, ?_, ?_, ?_, ?_, hok2, fun h => absurd h hne, by simp [hne]⟩
      · rw [hs2, hs]; simp
      · intro x hx
        rcases List.mem_cons.mp hx with rfl | hx
        · exact hq
        · exact hq2 x hx
      · rw [hm2, hm]; simp [List.replicate_succ]
      · intro h0 h3
        exact hb2 (by omega) (by omega)

/-- The recursion bound of `SendMessage` is enough: it always returns. -/
theorem SendMessageFuel_isSome (up : Upstream) (content : String) :
    ∀ (fuel : Nat) (c : ChatSession) (w : World),
      (3 - c.RetryCount).toNat < fuel → (SendMessageFuel up fuel c w content).isSome = true := by
  intro fuel
  induction fuel with
  | zero => intro c w h; omega
  | succ n ih =>
    intro c w h
    rw [SendMessageFuel_succ]
    cases ha : attempt up c w content with
    | returns r2 c2 w2 => rfl
    | retries c2 w2 =>
      obtain ⟨_, _, hlt, hc, _⟩ := attempt_retries ha
      exact ih c2 w2 (by omega)

/-- More recursion depth does not change a result. -/
theorem SendMessageFuel_mono (up : Upstream) (content : String) :
    ∀ (n m : Nat) (c : ChatSession) (w : World)
      (x : Except SendError Response × ChatSession × World),
      n ≤ m → SendMessageFuel up n c w content = some x →
      SendMessageFuel up m c w content = some x := by
  intro n
  induction n with
  | zero => intro m c w x _ h; simp [SendMessageFuel] at h
  | succ n ih =>
    intro m c w x hle h
    obtain ⟨m, rfl⟩ : ∃ k, m = k + 1 := ⟨m - 1, by omega⟩
    rw [SendMessageFuel_succ] at h ⊢
    cases ha : attempt up c w content with
    | returns r2 c2 w2 => rw [ha] at h; exact h
    | retries c2 w2 =>
      rw [ha] at h
      exact ih m c2 w2 x (by omega) h

theorem SendMessage_of_fuel {up : Upstream} {content : String} {n : Nat} {c : ChatSession}
    {w : World} {x : Except SendError Response × ChatSession × World}
    (h : SendMessageFuel up n c w content = some x) :
    SendMessage up c w content = some x := by
  unfold SendMessage
  have hs := SendMessageFuel_isSome up content ((3 - c.RetryCount).toNat + 1) c w (by omega)
  obtain ⟨y, hy⟩ := Option.isSome_iff_exists.mp hs
  rcases Nat.le_total n ((3 - c.RetryCount).toNat + 1) with hle | hle
  · exact SendMessageFuel_mono up content _ _ c w x hle h
  · have := SendMessageFuel_mono up content _ _ c w y hle hy
    rw [h] at this
    rw [hy, ← Option.some.inj this]

theorem SendMessage_returns (up : Upstream) (c : ChatSession) (w : World) (content : String) :
    ∃ r c1 w1, SendMessage up c w content = some (r, c1, w1) := by
  have hs := SendMessageFuel_isSome up content ((3 - c.RetryCount).toNat + 1) c w (by omega)
  obtain ⟨⟨r, c1, w1⟩, hy⟩ := Option.isSome_iff_exists.mp hs
  exact ⟨r, c1, w1, hy⟩

/-! ## Single steps of `SendMessage` under known upstream answers -/

theorem attempt_of_token {up : Upstream} {c : ChatSession} {w : World} {content : String}
    (hv : c.NewVqd ≠ "") : attempt up c w content = dispatch up c w content := by
  unfold attempt tokenCheck
  simp [hv]

/-- A session without a token that obtains one at the token check continues as
the session holding that token. -/
theorem SendMessageFuel_tokenCheck {up : Upstream} {c : ChatSession} {w : World}
    {content : String} (n : Nat) (h0 : c.NewVqd = "") (hq : up.vqd w.vqdCalls ≠ "") :
    SendMessageFuel up (n + 1) c w content =
      SendMessageFuel up (n + 1) { c with NewVqd := up.vqd w.vqdCalls }
        { w with vqdCalls := w.vqdCalls + 1 } content := by
  rw [SendMessageFuel_succ, SendMessageFuel_succ]
  have h1 : attempt up c w content =
      dispatch up { c with NewVqd := up.vqd w.vqdCalls } { w with vqdCalls := w.vqdCalls + 1 }
        content := by
    unfold attempt tokenCheck GetVQD
    simp [h0, hq]
  rw [h1, attempt_of_token (by simpa using hq)]

/-- A rejected request followed by a successful re-acquisition, with
`RetryCount` below 3, re-enters `SendMessage`. -/
theorem SendMessageFuel_retry {up : Upstream} {c : ChatSession} {w : World} {content : String}
    {resp : Response} (n : Nat) (hv : c.NewVqd ≠ "") (hc : up.chat w.sent.length = some resp)
    (hs : resp.StatusCode ≠ 200) (hj : isRejection resp = true)
    (hq : up.vqd w.vqdCalls ≠ "") (hr : c.RetryCount < 3) :
    SendMessageFuel up (n + 1) c w content =
      SendMessageFuel up n (retrySession up c w content) (retryWorld c w content) content := by
  rw [SendMessageFuel_succ, attempt_of_token hv]
  unfold dispatch
  simp only [Do, GetVQD, hc]
  simp [hs, hj, hq, hr, retrySession, retryWorld, withUserMessage]

/-- A rejected request is not retried when the re-acquisition fails or
`RetryCount` is not below 3: `SendMessage` returns the status error. -/
theorem SendMessageFuel_rejected {up : Upstream} {c : ChatSession} {w : World}
    {content : String} {resp : Response} (n : Nat) (hv : c.NewVqd ≠ "")
    (hc : up.chat w.sent.length = some resp)
    (hs : resp.StatusCode ≠ 200) (hj : isRejection resp = true)
    (hno : up.vqd w.vqdCalls = "" ∨ 3 ≤ c.RetryCount) :
    SendMessageFuel up (n + 1) c w content =
      some (.error (.status resp.StatusCode resp.Status resp.body),
        { withUserMessage c content with NewVqd := up.vqd w.vqdCalls },
        retryWorld c w content) := by
  rw [SendMessageFuel_succ, attempt_of_token hv]
  unfold dispatch
  simp only [Do, GetVQD, hc]
  have : ¬ (up.vqd w.vqdCalls ≠ "" ∧ c.RetryCount < 3) := by
    rintro ⟨h1, h2⟩
    rcases hno with h | h
    · exact h1 h
    · omega
  simp [hs, hj, this, retryWorld, withUserMessage]

/-- A request answered with status 200 ends the call with that response. -/
theorem SendMessageFuel_ok {up : Upstream} {c : ChatSession} {w : World}
    {content : String} {resp : Response} (n : Nat) (hv : c.NewVqd ≠ "")
    (hc : up.chat w.sent.length = some resp) (hs : resp.StatusCode = 200) :
    SendMessageFuel up (n + 1) c w content =
      some (.ok resp, acceptedSession c content resp, afterRequest c w content) := by
  rw [SendMessageFuel_succ, attempt_of_token hv]
  unfold dispatch
  simp only [Do, GetVQD, hc]
  unfold acceptedSession afterRequest withUserMessage
  by_cases hx : resp.xVqd4 = "" <;> simp [hs, hx]

theorem isRejection_of_418 {resp : Response} (h : resp.StatusCode = 418) :
    resp.StatusCode ≠ 200 ∧ isRejection resp = true := by
  unfold isRejection
  simp [h]

/-! ## The scanning loop against the specified fragments -/

theorem foldl_append_string (l : List String) (acc : String) :
    l.foldl (fun r s => r ++ s) acc = acc ++ String.join l := by
  induction l generalizing acc with
  | nil => simp [String.join]
  | cons a l ih =>
    simp only [List.foldl_cons, String.join]
    rw [ih, ih ("" ++ a)]
    simp [String.append_assoc]

theorem join_cons (a : String) (l : List String) : String.join (a :: l) = a ++ String.join l := by
  simp only [String.join, List.foldl_cons]
  rw [foldl_append_string, foldl_append_string]
  simp

theorem append_eq_empty {a b : String} : a ++ b = "" ↔ a = "" ∧ b = "" := by
  constructor
  · intro h
    have := congrArg String.data h
    simp only [String.data_append] at this
    have h2 : a.data = [] ∧ b.data = [] := by simpa using this
    exact ⟨String.ext h2.1, String.ext h2.2⟩
  · rintro ⟨rfl, rfl⟩; rfl

theorem lineFragment_ne_empty {unmarshal : String → Option String} {line m : String}
    (h : lineFragment unmarshal line = some m) : m ≠ "" := by
  unfold lineFragment at h
  split_ifs at h with hp
  split at h
  · split_ifs at h with hm
    cases h
    exact hm
  · cases h

theorem join_eq_empty_of_nonempty {l : List String} (h : ∀ s ∈ l, s ≠ "") :
    String.join l = "" ↔ l = [] := by
  cases l with
  | nil => simp [String.join]
  | cons a l =>
    rw [join_cons, append_eq_empty]
    simp only [reduceCtorEq, iff_false, not_and]
    intro ha
    exact absurd ha (h a (List.mem_cons_self a l))

theorem specFragments_ne_empty (unmarshal : String → Option String) (lines : List String) :
    ∀ s ∈ specFragments unmarshal lines, s ≠ "" := by
  intro s hs
  unfold specFragments at hs
  obtain ⟨line, _, hl⟩ := List.mem_filterMap.mp hs
  exact lineFragment_ne_empty hl

theorem specFragments_nil (unmarshal : String → Option String) :
    specFragments unmarshal [] = [] := rfl

theorem specFragments_done (unmarshal : String → Option String) (rest : List String) :
    specFragments unmarshal (doneLine :: rest) = [] := by
  simp [specFragments]

theorem specFragments_cons (unmarshal : String → Option String) (line : String)
    (rest : List String) (h : line ≠ doneLine) :
    specFragments unmarshal (line :: rest) =
      (match lineFragment unmarshal line with
        | some m => [m]
        | none => []) ++ specFragments unmarshal rest := by
  unfold specFragments
  rw [List.takeWhile_cons_of_pos (by simpa using h)]
  cases hf : lineFragment unmarshal line <;> simp [List.filterMap_cons, hf]

/-- The scanning loop refines the specification's description: it extends the
values sent on `stream` by the specified fragments and `responseBuffer` by
their concatenation. -/
theorem scanLoop_eq (unmarshal : String → Option String) (lines : List String)
    (st : DecodeState) :
    scanLoop unmarshal lines st =
      { stream := st.stream ++ specFragments unmarshal lines
        responseBuffer := st.responseBuffer ++ String.join (specFragments unmarshal lines) } := by
  induction lines generalizing st with
  | nil => simp [scanLoop, specFragments_nil, String.join]
  | cons line rest ih =>
    unfold scanLoop
    by_cases hd : line = "data: [DONE]"
    · subst hd
      rw [if_pos rfl]
      have hnone := specFragments_done unmarshal rest
      unfold doneLine at hnone
      rw [hnone]
      simp [String.join]
    · have hd2 : line ≠ doneLine := hd
      rw [if_neg hd, specFragments_cons unmarshal line rest hd2]
      unfold lineFragment
      by_cases hp : HasPrefix line "data: " = true
      · rw [if_pos hp, if_pos hp]
        cases hu : unmarshal (TrimPrefix line "data: ") with
        | none => simp [ih]
        | some m =>
          by_cases hm : m = ""
          · simp [hm, ih]
          · simp [hm, ih, join_cons, String.append_assoc]
      · rw [if_neg hp, if_neg hp]
        simp [ih]

/-! ## Repeated rejections -/

@[simp] theorem retrySession_NewVqd (up : Upstream) (c : ChatSession) (w : World)
    (content : String) : (retrySession up c w content).NewVqd = up.vqd w.vqdCalls := rfl

@[simp] theorem retrySession_RetryCount (up : Upstream) (c : ChatSession) (w : World)
    (content : String) : (retrySession up c w content).RetryCount = c.RetryCount + 1 := rfl

@[simp] theorem retrySession_Messages (up : Upstream) (c : ChatSession) (w : World)
    (content : String) :
    (retrySession up c w content).Messages = c.Messages ++ [userMessage content] := rfl

@[simp] theorem retryWorld_vqdCalls (c : ChatSession) (w : World) (content : String) :
    (retryWorld c w content).vqdCalls = w.vqdCalls + 1 := rfl

@[simp] theorem retryWorld_sent_length (c : ChatSession) (w : World) (content : String) :
    (retryWorld c w content).sent.length = w.sent.length + 1 := by
  simp [retryWorld]

/-- From a session with a token whose `RetryCount` is `k` below 3: `k + 1`
consecutive 418 answers, the first `k` each followed by a successful
re-acquisition, end in the status error with `RetryCount` 3 after `k + 1`
requests. -/
theorem SendMessageFuel_exhausts (up : Upstream) (content : String) :
    ∀ (k : Nat) (c : ChatSession) (w : World), c.NewVqd ≠ "" → c.RetryCount + k = 3 →
      (∀ i, i ≤ k → ∃ resp, up.chat (w.sent.length + i) = some resp ∧ resp.StatusCode = 418) →
      (∀ i, i < k → up.vqd (w.vqdCalls + i) ≠ "") →
      ∃ resp c1 w1, up.chat (w.sent.length + k) = some resp ∧
        SendMessageFuel up (k + 1) c w content =
          some (.error (.status 418 resp.Status resp.body), c1, w1) ∧
        c1.RetryCount = 3 ∧ w1.sent.length = w.sent.length + (k + 1) := by
  intro k
  induction k with
  | zero =>
    intro c w hv hr h418 _
    obtain ⟨resp, hc, hs⟩ := h418 0 (le_refl _)
    have hc0 : up.chat w.sent.length = some resp := by simpa using hc
    have hrun := @SendMessageFuel_rejected up c w content resp 0 hv hc0 (isRejection_of_418 hs).1
      (isRejection_of_418 hs).2 (Or.inr (by omega))
    rw [hs] at hrun
    refine ⟨resp, _, _, hc, hrun, ?_, ?_⟩
    · show c.RetryCount = 3
      omega
    · simp
  | succ k ih =>
    intro c w hv hr h418 hvqd
    obtain ⟨resp, hc, hs⟩ := h418 0 (Nat.zero_le _)
    have hc0 : up.chat w.sent.length = some resp := by simpa using hc
    have hq : up.vqd w.vqdCalls ≠ "" := by simpa using hvqd 0 (Nat.succ_pos _)
    rw [SendMessageFuel_retry (k + 1) hv hc0 (isRejection_of_418 hs).1 (isRejection_of_418 hs).2
      hq (by omega)]
    obtain ⟨resp1, c1, w1, hc1, hrun, hcount, hlen⟩ :=
      ih (retrySession up c w content) (retryWorld c w content) (by simpa using hq)
        (by simp; omega)
        (fun i hi => by
          have := h418 (i + 1) (by omega)
          simpa [Nat.add_assoc, Nat.add_comm 1 i] using this)
        (fun i hi => by
          have := hvqd (i + 1) (by omega)
          simpa [Nat.add_assoc, Nat.add_comm 1 i] using this)
    refine ⟨resp1, c1, w1, ?_, hrun, hcount, ?_⟩
    · simpa [Nat.add_assoc, Nat.add_comm 1 k] using hc1
    · rw [hlen]; simp; omega

/-! ## `ProcessStreamResponse` -/

/-- `ProcessStreamResponse` in terms of the specified fragments: it emits them,
reports failure exactly when the scanner ended with an error, and appends
their concatenation as the assistant message unless the read failed or no
fragment was emitted. -/
theorem ProcessStreamResponse_eq (unmarshal : String → Option String) (c : ChatSession)
    (resp : Response) :
    ProcessStreamResponse unmarshal c resp =
      ({ fragments := specFragments unmarshal resp.lines, failed := resp.scanErr },
        if resp.scanErr = true ∨ specFragments unmarshal resp.lines = [] then c
        else
          { c with
            Messages := c.Messages ++
              [{ Role := "assistant"
                 Content := String.join (specFragments unmarshal resp.lines) }] }) := by
  unfold ProcessStreamResponse
  simp only [scanLoop_eq, List.nil_append, String.empty_append]
  have hne := join_eq_empty_of_nonempty (specFragments_ne_empty unmarshal resp.lines)
  by_cases he : resp.scanErr = true
  · simp [he]
  · have he2 : resp.scanErr = false := by simpa using he
    by_cases hf : specFragments unmarshal resp.lines = []
    · simp [he2, hf, String.join]
    · have : String.join (specFragments unmarshal resp.lines) ≠ "" := fun h => hf (hne.mp h)
      simp [he2, hf, this]

theorem specFragments_dropMalformed (unmarshal : String → Option String) (lines : List String) :
    specFragments unmarshal (dropMalformed unmarshal lines) = specFragments unmarshal lines := by
  induction lines with
  | nil => rfl
  | cons line rest ih =>
    by_cases hd : line = doneLine
    · subst hd
      have : failsToParse unmarshal doneLine = false := by simp [failsToParse]
      simp [dropMalformed, List.filter_cons, this, specFragments_done]
    · by_cases hm : failsToParse unmarshal line = true
      · have hnone : lineFragment unmarshal line = none := by
          unfold failsToParse at hm
          simp only [Bool.and_eq_true, decide_eq_true_eq, Option.isNone_iff_eq_none] at hm
          unfold lineFragment
          simp [hm.1.2, hm.2]
        have hdrop : dropMalformed unmarshal (line :: rest) = dropMalformed unmarshal rest := by
          simp [dropMalformed, List.filter_cons, hm]
        rw [hdrop, ih, specFragments_cons unmarshal line rest hd, hnone]
        rfl
      · have hm2 : failsToParse unmarshal line = false := by simpa using hm
        have hkeep : dropMalformed unmarshal (line :: rest) =
            line :: dropMalformed unmarshal rest := by
          simp [dropMalformed, List.filter_cons, hm2]
        rw [hkeep, specFragments_cons unmarshal line _ hd, specFragments_cons unmarshal line _ hd]
        unfold dropMalformed at ih ⊢
        rw [ih]

/-! ## Turns -/

theorem SendMessage_trace {up : Upstream} {content : String} {c c1 : ChatSession} {w w1 : World}
    {r : Except SendError Response} (h : SendMessage up c w content = some (r, c1, w1)) :
    ∃ new, w1.sent = w.sent ++ new ∧ (∀ req ∈ new, req.xVqd4 ≠ "") ∧
      c1.Messages = c.Messages ++ List.replicate new.length (userMessage content) ∧
      (0 ≤ c.RetryCount → c.RetryCount ≤ 3 → 0 ≤ c1.RetryCount ∧ c1.RetryCount ≤ 3) ∧
      (∀ resp, r = .ok resp → c1.RetryCount = 0) ∧
      (r = .error .vqd → c.NewVqd = "") ∧ (r = .error .vqd ↔ new = []) :=
  SendMessageFuel_trace up content _ c w r c1 w1 h

/-- What one turn does to the history: one user message per dispatched
request, and after them the assistant message when the turn completed with at
least one fragment. -/
theorem Turn_cases {up : Upstream} {unmarshal : String → Option String} {c c1 : ChatSession}
    {w w1 : World} {content : String} {rec : TurnRecord}
    (h : Turn up unmarshal c w content = some (rec, c1, w1)) :
    (∃ e, rec.outcome = .sendFailed e ∧ (e = .vqd ↔ rec.dispatched = 0) ∧
        c1.Messages = c.Messages ++ List.replicate rec.dispatched (userMessage content)) ∨
      (∃ frs, rec.outcome = .streamFailed frs ∧ rec.dispatched ≠ 0 ∧
        c1.Messages = c.Messages ++ List.replicate rec.dispatched (userMessage content)) ∨
      (∃ frs, rec.outcome = .completed frs ∧ rec.dispatched ≠ 0 ∧
        c1.Messages = c.Messages ++ List.replicate rec.dispatched (userMessage content) ++
          (if frs = [] then [] else [{ Role := "assistant", Content := String.join frs }])) := by
  unfold Turn at h
  obtain ⟨r, c2, w2, hs⟩ := SendMessage_returns up c w content
  obtain ⟨new, hsent, _, hmsg, _, _, _, hvqd⟩ := SendMessage_trace hs
  have hlen : w2.sent.length - w.sent.length = new.length := by simp [hsent]
  rw [hs] at h
  cases r with
  | error e =>
    simp only [Option.some.injEq, Prod.mk.injEq] at h
    obtain ⟨rfl, rfl, rfl⟩ := h
    refine Or.inl ⟨e, rfl, ?_, ?_⟩
    · simp only [hlen]
      rw [List.length_eq_zero]
      constructor
      · intro he; exact hvqd.mp (by rw [he])
      · intro hn
        have := hvqd.mpr hn
        exact Except.error.inj this
    · simpa only [hlen] using hmsg
  | ok resp =>
    have hne : new ≠ [] := fun hn => by
      have := hvqd.mpr hn
      cases this
    have hne2 : new.length ≠ 0 := fun h0 => hne (List.length_eq_zero.mp h0)
    simp only [ProcessStreamResponse_eq, Option.some.injEq, Prod.mk.injEq] at h
    obtain ⟨rfl, rfl, rfl⟩ := h
    by_cases he : resp.scanErr = true
    · refine Or.inr (Or.inl ⟨specFragments unmarshal resp.lines, by simp [he], ?_, ?_⟩)
      · simpa only [hlen] using hne2
      · simp only [he, true_or, if_true, hlen]
        exact hmsg
    · have he2 : resp.scanErr = false := by simpa using he
      refine Or.inr (Or.inr ⟨specFragments unmarshal resp.lines, by simp [he2], ?_, ?_⟩)
      · simpa only [hlen] using hne2
      · simp only [he2, hlen, Bool.false_eq_true, false_or]
        by_cases hf : specFragments unmarshal resp.lines = []
        · simp [hf, hmsg]
        · simp [hf, hmsg]

theorem alternatingRoles_length (n : Nat) : (alternatingRoles n).length = 2 * n := by
  induction n with
  | zero => rfl
  | succ n ih => simp [alternatingRoles, ih]; omega

/-- Turns that each dispatch one request and complete with at least one
fragment extend the roles of the history by user, assistant per turn. -/
theorem runTurns_roles (up : Upstream) (unmarshal : String → Option String) :
    ∀ (contents : List String) (c : ChatSession) (w : World) (recs : List TurnRecord)
      (c1 : ChatSession) (w1 : World),
      runTurns up unmarshal c w contents = some (recs, c1, w1) →
      (∀ rec ∈ recs, rec.dispatched = 1 ∧ ∃ frs, frs ≠ [] ∧ rec.outcome = .completed frs) →
      c1.Messages.map (fun m => m.Role) =
        c.Messages.map (fun m => m.Role) ++ alternatingRoles contents.length := by
  intro contents
  induction contents with
  | nil =>
    intro c w recs c1 w1 h _
    simp only [runTurns, Option.some.injEq, Prod.mk.injEq] at h
    obtain ⟨_, rfl, _⟩ := h
    simp [alternatingRoles]
  | cons content rest ih =>
    intro c w recs c1 w1 h hgood
    unfold runTurns at h
    cases ht : Turn up unmarshal c w content with
    | none => rw [ht] at h; cases h
    | some x =>
      obtain ⟨rec, c2, w2⟩ := x
      rw [ht] at h
      dsimp only at h
      cases hr : runTurns up unmarshal c2 w2 rest with
      | none => rw [hr] at h; cases h
      | some y =>
        obtain ⟨recs2, c3, w3⟩ := y
        rw [hr] at h
        simp only [Option.some.injEq, Prod.mk.injEq] at h
        obtain ⟨rfl, rfl, rfl⟩ := h
        obtain ⟨hone, frs, hfrs, hout⟩ := hgood rec (List.mem_cons_self _ _)
        have hrest := ih c2 w2 recs2 c3 w3 hr
          (fun x hx => hgood x (List.mem_cons_of_mem _ hx))
        rw [hrest]
        rcases Turn_cases ht with ⟨e, he, _⟩ | ⟨f, hf, _⟩ | ⟨f, hf, _, hm⟩
        · rw [hout] at he; cases he
        · rw [hout] at hf; cases hf
        · rw [hout] at hf
          cases hf
          rw [hm, hone]
          simp [hfrs, alternatingRoles, userMessage]

theorem runTurns_returns (up : Upstream) (unmarshal : String → Option String) :
    ∀ (contents : List String) (c : ChatSession) (w : World),
      ∃ recs c1 w1, runTurns up unmarshal c w contents = some (recs, c1, w1) := by
  intro contents
  induction contents with
  | nil => intro c w; exact ⟨_, _, _, rfl⟩
  | cons content rest ih =>
    intro c w
    obtain ⟨r, c2, w2, hs⟩ := SendMessage_returns up c w content
    unfold runTurns Turn
    rw [hs]
    cases r with
    | error e =>
      dsimp only
      obtain ⟨recs, c3, w3, hr⟩ := ih c2 w2
      rw [hr]
      exact ⟨_, _, _, rfl⟩
    | ok resp =>
      dsimp only
      obtain ⟨recs, c3, w3, hr⟩ := ih (ProcessStreamResponse unmarshal c2 resp).2 w2
      rw [hr]
      exact ⟨_, _, _, rfl⟩

/-! ## Call sequences -/

theorem NewChatSession_fresh {up : Upstream} {w w0 : World} {model : Model} {c : ChatSession}
    (h : NewChatSession up w model = (some c, w0)) :
    c.Messages = [] ∧ c.RetryCount = 0 ∧ c.NewVqd ≠ "" := by
  unfold NewChatSession GetVQD at h
  dsimp only at h
  split_ifs at h with hv
  · simp at h
  · simp only [Prod.mk.injEq, Option.some.injEq] at h
    rw [← h.1]
    exact ⟨rfl, rfl, hv⟩

/-- Every sequence of calls runs to the end and keeps `RetryCount` within
0..3. -/
theorem runCalls_retryCount (up : Upstream) (unmarshal : String → Option String) :
    ∀ (calls : List Call) (c : ChatSession) (w : World),
      0 ≤ c.RetryCount → c.RetryCount ≤ 3 →
      ∃ c1 w1, runCalls up unmarshal c w calls = some (c1, w1) ∧
        0 ≤ c1.RetryCount ∧ c1.RetryCount ≤ 3 := by
  intro calls
  induction calls with
  | nil => intro c w h0 h3; exact ⟨c, w, rfl, h0, h3⟩
  | cons call rest ih =>
    intro c w h0 h3
    unfold runCalls
    cases call with
    | send content =>
      obtain ⟨r, c2, w2, hs⟩ := SendMessage_returns up c w content
      obtain ⟨_, _, _, _, hb, _⟩ := SendMessage_trace hs
      simp only [stepCall, hs, Option.map_some']
      exact ih c2 w2 (hb h0 h3).1 (hb h0 h3).2
    | process resp =>
      simp only [stepCall]
      refine ih _ w ?_ ?_
      · rw [ProcessStreamResponse_eq]; dsimp only; split_ifs <;> exact h0
      · rw [ProcessStreamResponse_eq]; dsimp only; split_ifs <;> exact h3
    | clear =>
      simp only [stepCall]
      exact ih _ _ (le_refl _) (by simp [Clear])

/-! ## The token check -/

/-- A session without a token whose token check obtains none returns the token
error at once: one token request, no chat request, history unchanged. -/
theorem SendMessageFuel_noToken {up : Upstream} {c : ChatSession} {w : World}
    {content : String} (n : Nat) (h0 : c.NewVqd = "") (hq : up.vqd w.vqdCalls = "") :
    SendMessageFuel up (n + 1) c w content =
      some (.error .vqd, { c with NewVqd := "" }, { w with vqdCalls := w.vqdCalls + 1 }) := by
  rw [SendMessageFuel_succ]
  unfold attempt tokenCheck GetVQD
  simp [h0, hq]

/-! ## The session registry -/

theorem Registry.set_of_absent (chatSessions : Registry) (sessionID : String)
    (session : ChatSession) (h : chatSessions.get sessionID = none) :
    chatSessions.set sessionID session = chatSessions ++ [(sessionID, session)] := by
  induction chatSessions with
  | nil => rfl
  | cons entry rest ih =>
    obtain ⟨k, v⟩ := entry
    unfold Registry.get at h ih
    by_cases hk : sessionID = k
    · subst hk
      simp [List.lookup] at h
    · have hk2 : (sessionID == k) = false := by simpa using hk
      rw [List.lookup_cons, hk2] at h
      have hk3 : ¬ k = sessionID := fun e => hk e.symm
      simp only [Registry.set, if_neg hk3, ih h, List.cons_append]

/-- A call without a session id whose generated id is not yet a key, and whose
token acquisition succeeds, inserts a new entry for the new session. -/
theorem getOrCreateSession_generated_absent (up : Upstream) (chatSessions : Registry)
    (w w1 : World) (model : Model) (session : ChatSession)
    (habsent : chatSessions.get (generateSessionID chatSessions) = none)
    (hnew : NewChatSession up w (if model = "" then GPT4Mini else model) = (some session, w1)) :
    getOrCreateSession up chatSessions w "" model =
      (some session, chatSessions ++ [(generateSessionID chatSessions, session)], w1) := by
  unfold getOrCreateSession
  simp only [if_true, habsent, hnew, Registry.set_of_absent _ _ _ habsent]

/-- A call without a session id whose generated id is already a key creates
nothing: it returns the session stored under that key, with the model
overridden when another one is asked for, acquires no token and leaves the
number of entries unchanged. -/
theorem getOrCreateSession_generated_present (up : Upstream) (chatSessions : Registry)
    (w : World) (model : Model) (stored : ChatSession)
    (hpresent : chatSessions.get (generateSessionID chatSessions) = some stored) :
    ∃ reg, getOrCreateSession up chatSessions w "" model =
        (some (if model ≠ "" ∧ stored.Model ≠ model then { stored with Model := model }
          else stored), reg, w) ∧
      (model = "" ∨ stored.Model = model → reg = chatSessions) := by
  unfold getOrCreateSession
  simp only [if_true, hpresent]
  by_cases hm : model ≠ "" ∧ stored.Model ≠ model
  · rw [if_pos hm, if_pos hm]
    refine ⟨_, rfl, ?_⟩
    rintro (h | h)
    · exact absurd h hm.1
    · exact absurd h hm.2
  · rw [if_neg hm, if_neg hm]
    exact ⟨_, rfl, fun _ => rfl⟩

/-! # The claims -/

/-! ## C1 -/

/-- C1 (evaluation at the failing input): on a session with an empty history, a
first request rejected with 418, a successful re-acquisition and a second
request answered with 200 make `SendMessage` return the response after two
requests, and the history then holds the user message twice. -/
theorem C1_retry_appends_user_message_twice :
    ∃ c1 w1, SendMessage (upRejecting 1) sessionA worldA "hi" = some (.ok okDoneOnly, c1, w1) ∧
      c1.Messages = sessionA.Messages ++ [userMessage "hi", userMessage "hi"] ∧
      w1.sent.length = 2 :=
  ⟨_, _, rfl, rfl, rfl⟩

/-! ## C2 -/

/-- C2 as stated fails: with `RetryCount` 0, three consecutive 418 answers, each
followed by a successful re-acquisition, are followed by a fourth request, and
when that one is answered with 200 the turn succeeds with `RetryCount` 0. -/
theorem C2_counterexample :
    sessionA.RetryCount = 0 ∧
      (upRejecting 3).chat 0 = some teapot ∧ (upRejecting 3).chat 1 = some teapot ∧
      (upRejecting 3).chat 2 = some teapot ∧ teapot.StatusCode = 418 ∧
      (upRejecting 3).vqd 0 ≠ "" ∧ (upRejecting 3).vqd 1 ≠ "" ∧ (upRejecting 3).vqd 2 ≠ "" ∧
      ∃ c1 w1, SendMessage (upRejecting 3) sessionA worldA "hi" = some (.ok okDoneOnly, c1, w1) ∧
        c1.RetryCount = 0 ∧ w1.sent.length = 4 :=
  ⟨rfl, rfl, rfl, rfl, rfl, by decide, by decide, by decide, _, _, rfl, rfl, rfl⟩

/-- C2 (amended): for a session whose `RetryCount` is 0 and that has or obtains
a token, four consecutive 418 answers, the first three each followed by a
successful re-acquisition, make `SendMessage` return the status error of the
fourth answer, with `RetryCount` 3 and exactly four requests dispatched. -/
theorem C2_four_rejections_exhaust_retries (up : Upstream) (c : ChatSession) (w : World)
    (content : String) (h0 : c.RetryCount = 0)
    (htok : c.NewVqd = "" → up.vqd w.vqdCalls ≠ "")
    (h418 : ∀ i, i ≤ 3 → ∃ resp, up.chat (w.sent.length + i) = some resp ∧ resp.StatusCode = 418)
    (hvqd : ∀ i, i < 3 → up.vqd ((tokenCheck up c w).2.vqdCalls + i) ≠ "") :
    ∃ resp c1 w1, up.chat (w.sent.length + 3) = some resp ∧
      SendMessage up c w content = some (.error (.status 418 resp.Status resp.body), c1, w1) ∧
      c1.RetryCount = 3 ∧ w1.sent.length = w.sent.length + 4 := by
  by_cases hv : c.NewVqd = ""
  · have hq := htok hv
    have hvqd2 : ∀ i, i < 3 → up.vqd (w.vqdCalls + 1 + i) ≠ "" := by
      intro i hi
      have := hvqd i hi
      simpa [tokenCheck, GetVQD, hv] using this
    obtain ⟨resp, c1, w1, hc, hrun, hcount, hlen⟩ :=
      SendMessageFuel_exhausts up content 3 { c with NewVqd := up.vqd w.vqdCalls }
        { w with vqdCalls := w.vqdCalls + 1 } (by simpa using hq) (by simp [h0]) h418 hvqd2
    rw [← SendMessageFuel_tokenCheck 3 hv hq] at hrun
    exact ⟨resp, c1, w1, hc, SendMessage_of_fuel hrun, hcount, hlen⟩
  · have hvqd2 : ∀ i, i < 3 → up.vqd (w.vqdCalls + i) ≠ "" := by
      intro i hi
      have := hvqd i hi
      simpa [tokenCheck, hv] using this
    obtain ⟨resp, c1, w1, hc, hrun, hcount, hlen⟩ :=
      SendMessageFuel_exhausts up content 3 c w hv (by simp [h0]) h418 hvqd2
    exact ⟨resp, c1, w1, hc, SendMessage_of_fuel hrun, hcount, hlen⟩

/-- C2 (amended), at a concrete input: four 418 answers on `sessionA`. -/
theorem C2_four_rejections_witness :
    ∃ resp c1 w1, (upRejecting 4).chat (worldA.sent.length + 3) = some resp ∧
      SendMessage (upRejecting 4) sessionA worldA "hi" =
        some (.error (.status 418 resp.Status resp.body), c1, w1) ∧
      c1.RetryCount = 3 ∧ w1.sent.length = worldA.sent.length + 4 :=
  C2_four_rejections_exhaust_retries (upRejecting 4) sessionA worldA "hi" rfl
    (fun h => absurd h (by decide))
    (fun i hi => ⟨teapot, by
      have : i < 4 := by omega
      simp [upRejecting, worldA, this], rfl⟩)
    (fun i _ => by simp [upRejecting])

/-! ## C3 -/

/-- C3 as stated fails: on a freshly created session, a turn whose 200 response
holds the sentinel only is successful (response returned, stream drained
without error), yet the history then holds the user message alone: length 1,
not 2. -/
theorem C3_counterexample :
    ∃ c w0 c1 w1, NewChatSession upDoneOnly worldA GPT4Mini = (some c, w0) ∧
      runTurns upDoneOnly unmarshalMessage c w0 ["hi"] =
        some ([{ outcome := .completed [], dispatched := 1 }], c1, w1) ∧
      c1.Messages = [userMessage "hi"] ∧ c1.Messages.length ≠ 2 * ["hi"].length :=
  ⟨_, _, _, _, rfl, rfl, rfl, by decide⟩

/-- C3 (amended): on a freshly created session, after N successful turns that
each dispatched a single request (no internal retry) and each emitted at least
one fragment, the history has length 2N and its roles are user, assistant,
user, assistant, ..., starting with user. -/
theorem C3_history_alternates (up : Upstream) (unmarshal : String → Option String) (w w0 : World)
    (model : Model) (c : ChatSession) (contents : List String) (recs : List TurnRecord)
    (c1 : ChatSession) (w1 : World)
    (hnew : NewChatSession up w model = (some c, w0))
    (hrun : runTurns up unmarshal c w0 contents = some (recs, c1, w1))
    (hgood : ∀ rec ∈ recs, rec.dispatched = 1 ∧ ∃ frs, frs ≠ [] ∧ rec.outcome = .completed frs) :
    c1.Messages.length = 2 * contents.length ∧
      c1.Messages.map (fun m => m.Role) = alternatingRoles contents.length := by
  have hfresh : c.Messages = [] := by
    unfold NewChatSession at hnew
    dsimp only at hnew
    split_ifs at hnew with hv
    · simp at hnew
    · simp only [Prod.mk.injEq, Option.some.injEq] at hnew
      rw [← hnew.1]
  have hroles := runTurns_roles up unmarshal contents c w0 recs c1 w1 hrun hgood
  rw [hfresh] at hroles
  simp only [List.map_nil, List.nil_append] at hroles
  refine ⟨?_, hroles⟩
  have := congrArg List.length hroles
  rwa [List.length_map, alternatingRoles_length] at this

/-- C3 (amended) at a concrete input: two turns answered by `okHello` on a fresh
session. -/
theorem C3_history_alternates_witness :
    ∃ c w0 recs c1 w1, NewChatSession upHello worldA GPT4Mini = (some c, w0) ∧
      runTurns upHello unmarshalMessage c w0 ["hi", "again"] = some (recs, c1, w1) ∧
      (∀ rec ∈ recs, rec.dispatched = 1 ∧ ∃ frs, frs ≠ [] ∧ rec.outcome = .completed frs) ∧
      c1.Messages.length = 2 * ["hi", "again"].length ∧
      c1.Messages.map (fun m => m.Role) = alternatingRoles ["hi", "again"].length :=
  have hgood : ∀ rec ∈ [({ outcome := .completed ["Hel", "lo"], dispatched := 1 } : TurnRecord),
      { outcome := .completed ["Hel", "lo"], dispatched := 1 }],
      rec.dispatched = 1 ∧ ∃ frs, frs ≠ [] ∧ rec.outcome = .completed frs := by
    intro rec hrec
    simp only [List.mem_cons, List.mem_singleton, List.not_mem_nil, or_false, or_self] at hrec
    subst hrec
    exact ⟨rfl, _, by simp, rfl⟩
  ⟨_, _, _, _, _, rfl, rfl, hgood,
    C3_history_alternates upHello unmarshalMessage worldA _ GPT4Mini _ ["hi", "again"] _ _ _
      rfl rfl hgood⟩

/-! ## C4 -/

/-- C4 as stated fails: a session left without a token by a `Clear` whose
acquisition failed, and whose token check fails again, ends the turn with the
token error before the append of line 176: the history is unchanged, the user
message is not recorded. -/
theorem C4_counterexample :
    ∃ c w0 c1 w1 c2 w2, NewChatSession upTokenLost worldA GPT4Mini = (some c, w0) ∧
      Clear upTokenLost c w0 = (c1, w1) ∧
      Turn upTokenLost unmarshalMessage c1 w1 "hi" =
        some ({ outcome := .sendFailed .vqd, dispatched := 0 }, c2, w2) ∧
      c2.Messages = c1.Messages ∧ c2.Messages ≠ c1.Messages ++ [userMessage "hi"] :=
  ⟨_, _, _, _, _, _, rfl, rfl, rfl, rfl, by decide⟩

/-- C4 (amended): after a failed turn during which at most one request was
dispatched (no internal retry), either the turn failed at the token check, no
request was dispatched and the history is unchanged, or the turn failed in
another way (transport failure, upstream status that is not retried, stream
read failure), one request was dispatched and the history is the previous
history followed by exactly the user message of the turn; no assistant message
is appended. -/
theorem C4_failed_turn_history (up : Upstream) (unmarshal : String → Option String)
    (c c1 : ChatSession) (w w1 : World) (content : String) (rec : TurnRecord)
    (h : Turn up unmarshal c w content = some (rec, c1, w1))
    (hfail : ∀ frs, rec.outcome ≠ .completed frs) (hone : rec.dispatched ≤ 1) :
    (rec.outcome = .sendFailed .vqd ∧ rec.dispatched = 0 ∧ c1.Messages = c.Messages) ∨
      (rec.outcome ≠ .sendFailed .vqd ∧ rec.dispatched = 1 ∧
        c1.Messages = c.Messages ++ [userMessage content]) := by
  rcases Turn_cases h with ⟨e, he, hv, hm⟩ | ⟨f, hf, hd, hm⟩ | ⟨f, hf, _⟩
  · by_cases hz : rec.dispatched = 0
    · refine Or.inl ⟨?_, hz, ?_⟩
      · rw [he, hv.mpr hz]
      · simpa [hz] using hm
    · have h1 : rec.dispatched = 1 := by omega
      refine Or.inr ⟨?_, h1, ?_⟩
      · rw [he]
        intro hx
        exact hz (hv.mp (TurnOutcome.sendFailed.inj hx))
      · simpa [h1] using hm
  · have h1 : rec.dispatched = 1 := by omega
    refine Or.inr ⟨?_, h1, ?_⟩
    · rw [hf]; intro hx; cases hx
    · simpa [h1] using hm
  · exact absurd hf (hfail f)

/-- C4 (amended) at a concrete input: a turn on `sessionA` answered with status
500. -/
theorem C4_failed_turn_witness :
    ∃ rec c1 w1, Turn upServerError unmarshalMessage sessionA worldA "hi" = some (rec, c1, w1) ∧
      rec.outcome = .sendFailed (.status 500 "500 Internal Server Error" "oops") ∧
      ((rec.outcome = .sendFailed .vqd ∧ rec.dispatched = 0 ∧ c1.Messages = sessionA.Messages) ∨
        (rec.outcome ≠ .sendFailed .vqd ∧ rec.dispatched = 1 ∧
          c1.Messages = sessionA.Messages ++ [userMessage "hi"])) :=
  ⟨_, _, _, rfl, rfl,
    C4_failed_turn_history upServerError unmarshalMessage sessionA _ worldA _ "hi" _ rfl
      (fun _ hx => by cases hx) (by decide)⟩

/-! ## C5 -/

/-- C5: when the event lines are read without error, `ProcessStreamResponse`
emits exactly, in order, the non-empty `message` values of the lines that
precede the first sentinel line, start with the prefix and parse; the text it
accumulates is the concatenation of these fragments, and that text is what it
appends to the history as the assistant message (nothing when no fragment was
emitted). In particular, with a decoder that reads the two sample events, the
three sample lines give the fragments "Hel", "lo" and the text "Hello". -/
theorem C5_decoder_emits_specified_fragments (unmarshal : String → Option String)
    (c : ChatSession) (resp : Response) (hread : resp.scanErr = false) :
    (ProcessStreamResponse unmarshal c resp).1 =
        { fragments := specFragments unmarshal resp.lines, failed := false } ∧
      (scanLoop unmarshal resp.lines { stream := [], responseBuffer := "" }).responseBuffer =
        String.join (ProcessStreamResponse unmarshal c resp).1.fragments ∧
      (ProcessStreamResponse unmarshal c resp).2.Messages =
        c.Messages ++
          (if specFragments unmarshal resp.lines = [] then []
           else [{ Role := "assistant"
                   Content := String.join (specFragments unmarshal resp.lines) }]) ∧
      (unmarshal "\x7b\"message\":\"Hel\"\x7d" = some "Hel" →
        unmarshal "\x7b\"message\":\"lo\"\x7d" = some "lo" →
        resp.lines = ["data: \x7b\"message\":\"Hel\"\x7d", "data: \x7b\"message\":\"lo\"\x7d",
          "data: [DONE]"] →
        (ProcessStreamResponse unmarshal c resp).1.fragments = ["Hel", "lo"] ∧
          (ProcessStreamResponse unmarshal c resp).2.Messages =
            c.Messages ++ [{ Role := "assistant", Content := "Hello" }]) := by
  rw [ProcessStreamResponse_eq, hread]
  refine ⟨rfl, by simp [scanLoop_eq], ?_, ?_⟩
  · by_cases hf : specFragments unmarshal resp.lines = [] <;> simp [hf]
  · intro h1 h2 hl
    have e1 : TrimPrefix "data: \x7b\"message\":\"Hel\"\x7d" "data: " = "\x7b\"message\":\"Hel\"\x7d" := by
      decide
    have e2 : TrimPrefix "data: \x7b\"message\":\"lo\"\x7d" "data: " = "\x7b\"message\":\"lo\"\x7d" := by
      decide
    have p1 : HasPrefix "data: \x7b\"message\":\"Hel\"\x7d" "data: " = true := by decide
    have p2 : HasPrefix "data: \x7b\"message\":\"lo\"\x7d" "data: " = true := by decide
    have hfr : specFragments unmarshal resp.lines = ["Hel", "lo"] := by
      rw [hl, specFragments_cons _ _ _ (by decide), specFragments_cons _ _ _ (by decide)]
      have hd := specFragments_done unmarshal []
      unfold doneLine at hd
      rw [hd]
      simp [lineFragment, p1, p2, e1, e2, h1, h2]
    rw [hfr]
    refine ⟨rfl, ?_⟩
    have : String.join ["Hel", "lo"] = "Hello" := by decide
    simp [this]

/-- C5 at a concrete input: the response `okHello` decoded with
`unmarshalMessage` on `sessionA`. -/
theorem C5_decoder_witness :
    okHello.scanErr = false ∧
      (ProcessStreamResponse unmarshalMessage sessionA okHello).1.fragments = ["Hel", "lo"] ∧
      (ProcessStreamResponse unmarshalMessage sessionA okHello).2.Messages =
        sessionA.Messages ++ [{ Role := "assistant", Content := "Hello" }] :=
  ⟨rfl, (C5_decoder_emits_specified_fragments unmarshalMessage sessionA okHello rfl).2.2.2
    (by decide) (by decide) rfl⟩

/-! ## C6 -/

/-- C6: a line that reaches the parser and fails to parse is skipped and does
not end decoding: `ProcessStreamResponse` gives the same fragments, the same
history (hence the same accumulated text) and the same error status as on the
line sequence with every such line removed, and it reports no error when the
scanner reports none. In particular, with a decoder that rejects the sample
malformed event and reads the sample valid one, the three sample lines give
exactly the one fragment "ok". -/
theorem C6_malformed_lines_are_skipped (unmarshal : String → Option String) (c : ChatSession)
    (resp : Response) :
    ProcessStreamResponse unmarshal c resp =
        ProcessStreamResponse unmarshal c
          { resp with lines := dropMalformed unmarshal resp.lines } ∧
      (scanLoop unmarshal resp.lines { stream := [], responseBuffer := "" } =
        scanLoop unmarshal (dropMalformed unmarshal resp.lines)
          { stream := [], responseBuffer := "" }) ∧
      (resp.scanErr = false → (ProcessStreamResponse unmarshal c resp).1.failed = false) ∧
      (unmarshal "\x7bbad json" = none →
        unmarshal "\x7b\"message\":\"ok\"\x7d" = some "ok" →
        resp.lines = ["data: \x7bbad json", "data: \x7b\"message\":\"ok\"\x7d", "data: [DONE]"] →
        resp.scanErr = false →
        (ProcessStreamResponse unmarshal c resp).1 = { fragments := ["ok"], failed := false }) := by
  refine ⟨?_, ?_, ?_, ?_⟩
  · rw [ProcessStreamResponse_eq, ProcessStreamResponse_eq]
    simp only [specFragments_dropMalformed]
  · rw [scanLoop_eq, scanLoop_eq, specFragments_dropMalformed]
  · intro h
    rw [ProcessStreamResponse_eq, h]
  · intro h1 h2 hl he
    rw [ProcessStreamResponse_eq, he, hl, specFragments_cons _ _ _ (by decide),
      specFragments_cons _ _ _ (by decide)]
    have hd := specFragments_done unmarshal []
    unfold doneLine at hd
    rw [hd]
    have e1 : TrimPrefix "data: \x7bbad json" "data: " = "\x7bbad json" := by decide
    have e2 : TrimPrefix "data: \x7b\"message\":\"ok\"\x7d" "data: " = "\x7b\"message\":\"ok\"\x7d" := by
      decide
    have p1 : HasPrefix "data: \x7bbad json" "data: " = true := by decide
    have p2 : HasPrefix "data: \x7b\"message\":\"ok\"\x7d" "data: " = true := by decide
    simp [lineFragment, p1, p2, e1, e2, h1, h2]

/-- C6 at a concrete input: the sample stream decoded with `unmarshalMessage`. -/
theorem C6_malformed_witness :
    unmarshalMessage "\x7bbad json" = none ∧
      unmarshalMessage "\x7b\"message\":\"ok\"\x7d" = some "ok" ∧
      (ProcessStreamResponse unmarshalMessage sessionA
        { okHello with
          lines := ["data: \x7bbad json", "data: \x7b\"message\":\"ok\"\x7d", "data: [DONE]"] }).1 =
        { fragments := ["ok"], failed := false } :=
  ⟨by decide, by decide,
    (C6_malformed_lines_are_skipped unmarshalMessage sessionA
      { okHello with
        lines := ["data: \x7bbad json", "data: \x7b\"message\":\"ok\"\x7d", "data: [DONE]"] }).2.2.2
      (by decide) (by decide) rfl rfl⟩

/-! ## C7 -/

/-- C7: on a session created by `NewChatSession`, every sequence of
`SendMessage`, `ProcessStreamResponse` and `Clear` calls runs, with any
upstream answers, and after each of its steps `RetryCount` lies between 0 and
3; and when a request dispatched with `RetryCount` equal to 3 is rejected,
`SendMessage` returns the status error after that single request, with
`RetryCount` still 3. -/
theorem C7_retryCount_never_exceeds_three (up : Upstream) (unmarshal : String → Option String)
    (w w0 : World) (model : Model) (c : ChatSession) (calls : List Call)
    (hnew : NewChatSession up w model = (some c, w0)) :
    (∀ k, ∃ c1 w1, runCalls up unmarshal c w0 (calls.take k) = some (c1, w1) ∧
        0 ≤ c1.RetryCount ∧ c1.RetryCount ≤ 3) ∧
      (∀ (c2 : ChatSession) (w2 : World) (content : String) (resp : Response),
        c2.RetryCount = 3 → (tokenCheck up c2 w2).1.NewVqd ≠ "" →
        up.chat w2.sent.length = some resp → resp.StatusCode ≠ 200 → isRejection resp = true →
        ∃ c3 w3, SendMessage up c2 w2 content =
            some (.error (.status resp.StatusCode resp.Status resp.body), c3, w3) ∧
          c3.RetryCount = 3 ∧ w3.sent.length = w2.sent.length + 1) := by
  obtain ⟨_, hr, _⟩ := NewChatSession_fresh hnew
  refine ⟨fun k => runCalls_retryCount up unmarshal _ c w0 (by rw [hr]) (by rw [hr]; norm_num), ?_⟩
  intro c2 w2 content resp h3 htok hc hs hj
  by_cases hv : c2.NewVqd = ""
  · have hq : up.vqd w2.vqdCalls ≠ "" := by simpa [tokenCheck, GetVQD, hv] using htok
    have hrun := @SendMessageFuel_rejected up { c2 with NewVqd := up.vqd w2.vqdCalls }
      { w2 with vqdCalls := w2.vqdCalls + 1 } content resp 0 (by simpa using hq) hc hs hj
      (Or.inr (by simp [h3]))
    rw [← SendMessageFuel_tokenCheck 0 hv hq] at hrun
    exact ⟨_, _, SendMessage_of_fuel hrun, h3, by simp⟩
  · have hrun := @SendMessageFuel_rejected up c2 w2 content resp 0 hv hc hs hj
      (Or.inr (by simp [h3]))
    exact ⟨_, _, SendMessage_of_fuel hrun, h3, by simp⟩

/-- C7 at a concrete input: a session created against `upRejecting 4` and one
`SendMessage` call, after which `RetryCount` is 3. -/
theorem C7_retryCount_witness :
    ∃ c w0, NewChatSession (upRejecting 4) worldA GPT4Mini = (some c, w0) ∧
      ∃ c1 w1, runCalls (upRejecting 4) unmarshalMessage c w0 ([Call.send "hi"].take 1) =
          some (c1, w1) ∧ 0 ≤ c1.RetryCount ∧ c1.RetryCount ≤ 3 :=
  ⟨_, _, rfl,
    (C7_retryCount_never_exceeds_three (upRejecting 4) unmarshalMessage worldA _ GPT4Mini _
      [Call.send "hi"] rfl).1 1⟩

/-! ## C8 -/

/-- C8: `SendMessage` always returns, and every request it dispatched, on the
first attempt and on each internal retry, carries a non-empty `x-vqd-4` value;
and when `NewVqd` is empty and the acquisition returns the empty token, it
returns the token error after that single token request, without dispatching
any request and without touching the history. -/
theorem C8_token_never_empty_on_dispatch (up : Upstream) (c : ChatSession) (w : World)
    (content : String) :
    ∃ r c1 w1 new, SendMessage up c w content = some (r, c1, w1) ∧
      w1.sent = w.sent ++ new ∧ (∀ req ∈ new, req.xVqd4 ≠ "") ∧
      (c.NewVqd = "" → up.vqd w.vqdCalls = "" →
        r = .error .vqd ∧ new = [] ∧ w1.vqdCalls = w.vqdCalls + 1 ∧
          c1.Messages = c.Messages ∧ c1.RetryCount = c.RetryCount) := by
  obtain ⟨r, c1, w1, hs⟩ := SendMessage_returns up c w content
  obtain ⟨new, hsent, htok, _, _, _, _, hvqd⟩ := SendMessage_trace hs
  refine ⟨r, c1, w1, new, hs, hsent, htok, ?_⟩
  intro h0 hq
  have hrun := SendMessage_of_fuel (@SendMessageFuel_noToken up c w content 0 h0 hq)
  rw [hs] at hrun
  simp only [Option.some.injEq, Prod.mk.injEq] at hrun
  obtain ⟨rfl, rfl, rfl⟩ := hrun
  exact ⟨rfl, hvqd.mp rfl, rfl, rfl, rfl⟩

/-! ## C9 -/

/-- C9: for a session with `RetryCount` below 3 that has, or obtains at the
token check, a token: when the first request is answered with 418, the
re-acquisition that follows succeeds and the second request is answered with
200, `SendMessage` returns that 200 response with `RetryCount` 0; and when the
200 response carries a non-empty `x-vqd-4` header, `NewVqd` becomes that value
and `OldVqd` the re-acquired token, which was current when the response
arrived. -/
theorem C9_one_rejection_then_success (up : Upstream) (c : ChatSession) (w : World)
    (content : String) (resp1 resp2 : Response) (hr : c.RetryCount < 3)
    (htok : (tokenCheck up c w).1.NewVqd ≠ "")
    (h1 : up.chat w.sent.length = some resp1) (h418 : resp1.StatusCode = 418)
    (hq : up.vqd (tokenCheck up c w).2.vqdCalls ≠ "")
    (h2 : up.chat (w.sent.length + 1) = some resp2) (h200 : resp2.StatusCode = 200) :
    ∃ c1 w1, SendMessage up c w content = some (.ok resp2, c1, w1) ∧ c1.RetryCount = 0 ∧
      w1.sent.length = w.sent.length + 2 ∧
      (resp2.xVqd4 ≠ "" →
        c1.NewVqd = resp2.xVqd4 ∧ c1.OldVqd = up.vqd (tokenCheck up c w).2.vqdCalls) := by
  have key : ∀ (c0 : ChatSession) (w0 : World), c0.NewVqd ≠ "" → c0.RetryCount < 3 →
      up.chat w0.sent.length = some resp1 → up.vqd w0.vqdCalls ≠ "" →
      up.chat (w0.sent.length + 1) = some resp2 →
      ∃ c1 w1, SendMessageFuel up 2 c0 w0 content = some (.ok resp2, c1, w1) ∧
        c1.RetryCount = 0 ∧ w1.sent.length = w0.sent.length + 2 ∧
        (resp2.xVqd4 ≠ "" → c1.NewVqd = resp2.xVqd4 ∧ c1.OldVqd = up.vqd w0.vqdCalls) := by
    intro c0 w0 hv0 hr0 hc1 hq0 hc2
    have hstep := @SendMessageFuel_retry up c0 w0 content resp1 1 hv0 hc1
      (isRejection_of_418 h418).1 (isRejection_of_418 h418).2 hq0 hr0
    have hok := @SendMessageFuel_ok up (retrySession up c0 w0 content) (retryWorld c0 w0 content)
      content resp2 0 (by simpa using hq0) (by simpa using hc2) h200
    rw [hstep, hok]
    refine ⟨_, _, rfl, ?_, ?_, ?_⟩
    · unfold acceptedSession; split_ifs <;> rfl
    · simp [afterRequest, retryWorld]
    · intro hx
      unfold acceptedSession
      rw [if_pos hx]
      exact ⟨rfl, rfl⟩
  by_cases hv : c.NewVqd = ""
  · have hq0 : up.vqd w.vqdCalls ≠ "" := by simpa [tokenCheck, GetVQD, hv] using htok
    have hq1 : up.vqd (w.vqdCalls + 1) ≠ "" := by simpa [tokenCheck, GetVQD, hv] using hq
    obtain ⟨c1, w1, hrun, hcount, hlen, hvqd⟩ := key { c with NewVqd := up.vqd w.vqdCalls }
      { w with vqdCalls := w.vqdCalls + 1 } (by simpa using hq0) hr h1 hq1 h2
    rw [← SendMessageFuel_tokenCheck 1 hv hq0] at hrun
    refine ⟨c1, w1, SendMessage_of_fuel hrun, hcount, hlen, ?_⟩
    simpa [tokenCheck, GetVQD, hv] using hvqd
  · have hq1 : up.vqd w.vqdCalls ≠ "" := by simpa [tokenCheck, hv] using hq
    obtain ⟨c1, w1, hrun, hcount, hlen, hvqd⟩ := key c w hv hr h1 hq1 h2
    refine ⟨c1, w1, SendMessage_of_fuel hrun, hcount, hlen, ?_⟩
    simpa [tokenCheck, hv] using hvqd

/-- C9 at a concrete input: `sessionA` against an upstream that rejects the
first request only. -/
theorem C9_one_rejection_witness :
    ∃ c1 w1, SendMessage (upRejecting 1) sessionA worldA "hi" = some (.ok okDoneOnly, c1, w1) ∧
      c1.RetryCount = 0 ∧ w1.sent.length = worldA.sent.length + 2 ∧
      (okDoneOnly.xVqd4 ≠ "" →
        c1.NewVqd = okDoneOnly.xVqd4 ∧
          c1.OldVqd = (upRejecting 1).vqd (tokenCheck (upRejecting 1) sessionA worldA).2.vqdCalls) :=
  C9_one_rejection_then_success (upRejecting 1) sessionA worldA "hi" teapot okDoneOnly
    (by decide) (by decide) rfl rfl (by decide) rfl rfl

/-! ## C10 -/

/-- C10 (evaluation at the failing input): the alias that `GetModels`
advertises for Claude 3 Haiku is rejected by `validateModel`, while the
identifier of that entry and both names of the four other entries are
accepted and give the entry's identifier. -/
theorem C10_advertised_claude_alias_rejected :
    (∃ m ∈ GetModels, m.ID = Claude3 ∧ m.Alias = "claude-3-haiku" ∧
        validateModel m.Alias = .error "modèle non supporté: claude-3-haiku" ∧
        validateModel m.ID = .ok m.ID) ∧
      (∀ m ∈ GetModels, m.ID ≠ Claude3 →
        validateModel m.ID = .ok m.ID ∧ validateModel m.Alias = .ok m.ID) := by
  constructor
  · refine ⟨GetModels.get ⟨1, by decide⟩, by decide, rfl, rfl, rfl, rfl⟩
  · intro m hm hne
    simp only [GetModels, List.mem_cons, List.mem_singleton, List.not_mem_nil, or_false] at hm
    rcases hm with rfl | rfl | rfl | rfl | rfl
    · exact ⟨rfl, rfl⟩
    · exact absurd rfl hne
    · exact ⟨rfl, rfl⟩
    · exact ⟨rfl, rfl⟩
    · exact ⟨rfl, rfl⟩

/-! ## C11 -/

/-- C11 (evaluation at the failing input): starting from the empty registry, a
first caller supplies the id "session_2" and gets a new session stored under
it; the registry then has one entry, so `generateSessionID` produces
"session_2", an id that is already a key; the call without a session id that
follows acquires no token, inserts no entry and returns the session of the
first caller. -/
theorem C11_generated_id_is_already_a_key :
    ∃ sA reg1 w1 sB reg2 w2,
      getOrCreateSession upHello [] worldA "session_2" GPT4Mini = (some sA, reg1, w1) ∧
      reg1 = [("session_2", sA)] ∧
      generateSessionID reg1 = "session_2" ∧
      reg1.get (generateSessionID reg1) = some sA ∧
      getOrCreateSession upHello reg1 w1 "" GPT4Mini = (some sB, reg2, w2) ∧
      sB = sA ∧ reg2 = reg1 ∧ w2 = w1 :=
  ⟨_, _, _, _, _, _, rfl, rfl, rfl, rfl, rfl, rfl, rfl, rfl⟩

end DuckChat
